import Mathlib

/-!
Verification of the DayPlanner core (`src/services/gemini.ts`): the Timer
state machine (tick / toggle / skip / task-change / settings-change) and the
plan-extraction client `parseNaturalLanguagePlan`.
-/

namespace DayPlanner

/-- Modelled from the spec: `src/types.ts` is not among the sources. The
`TimerState` enumeration is reconstructed from its uses in the Timer
component (`TimerState.IDLE`, `TimerState.RUNNING`, `TimerState.PAUSED`)
and section 3 of the spec. -/
inductive TimerState where
  | IDLE
  | RUNNING
  | PAUSED
  deriving DecidableEq, Repr

/-- The interval mode, a string union `'pomo' | 'short' | 'long'` in the
source (`useState<'pomo' | 'short' | 'long'>('pomo')`). -/
inductive Mode where
  | pomo
  | short
  | long
  deriving DecidableEq, Repr

/-- Modelled from the spec: `src/types.ts` is not among the sources. Fields
are reconstructed from their uses in the Timer component (`activeTask.id`,
`activeTask.title`, `activeTask.completedPomodoros`,
`activeTask.expectedPomodoros`) and section 3 of the spec. -/
structure Task where
  id : String
  title : String
  completedPomodoros : Nat
  expectedPomodoros : Nat
  deriving DecidableEq, Repr

/-- Modelled from the spec: `src/types.ts` is not among the sources. Fields
are reconstructed from their uses in the Timer component and section 3 of
the spec (durations are positive integers, in minutes). -/
structure Settings where
  pomodoroDuration : Nat
  shortBreakDuration : Nat
  longBreakDuration : Nat
  autoStartBreaks : Bool
  autoStartPomodoros : Bool
  deriving DecidableEq, Repr

/-- The state read and written by the Timer component: the three `useState`
cells (`timeLeft`, `timerState`, `mode`) together with the externally
supplied props (`activeTask`, `settings`), as captured in `stateRef.current`.
`timeLeft` is in seconds. -/
structure Snapshot where
  timeLeft : Nat
  timerState : TimerState
  mode : Mode
  activeTask : Option Task
  settings : Settings
  deriving DecidableEq, Repr

/-- The `(mode, timeLeftSeconds, state)` triple the spec calls the engine
snapshot (the part owned exclusively by the engine). -/
def engineTriple (s : Snapshot) : Mode × Nat × TimerState :=
  (s.mode, s.timeLeft, s.timerState)

/-- `handleTimerFinish` from the source. It reads `mode`, `activeTask` and
`settings` from `stateRef.current`, sets `timerState` to IDLE, plays the
chime (a fire-and-forget side effect, errors swallowed, not modelled), and
then branches on the finished mode. The second component is the list of
`onPomodoroComplete` callback invocations (task ids) raised to the caller. -/
def handleTimerFinish (s : Snapshot) : Snapshot × List String :=
  if s.mode = Mode.pomo then
    let events := match s.activeTask with
      | some t => [t.id]
      | none => []
    let completed := (s.activeTask.map Task.completedPomodoros).getD 0 + 1
    let nextMode := if completed % 4 = 0 then Mode.long else Mode.short
    let nextTime := (if nextMode = Mode.long then s.settings.longBreakDuration
      else s.settings.shortBreakDuration) * 60
    let nextState := if s.settings.autoStartBreaks then TimerState.RUNNING
      else TimerState.IDLE
    ({ s with timerState := nextState, mode := nextMode, timeLeft := nextTime },
      events)
  else
    let nextState := if s.settings.autoStartPomodoros then TimerState.RUNNING
      else TimerState.IDLE
    ({ s with
        timerState := nextState, mode := Mode.pomo,
        timeLeft := s.settings.pomodoroDuration * 60 }, [])

/-- The body of the `setInterval` callback in the Timer component: read the
current `timerState` and `timeLeft` from `stateRef.current`; when RUNNING,
finish the interval if `timeLeft <= 1`, otherwise decrement by one; when not
RUNNING, do nothing. -/
def tick (s : Snapshot) : Snapshot × List String :=
  if s.timerState = TimerState.RUNNING then
    if s.timeLeft ≤ 1 then handleTimerFinish s
    else ({ s with timeLeft := s.timeLeft - 1 }, [])
  else (s, [])

/-- `toggleTimer` from the source: RUNNING becomes PAUSED, anything else
becomes RUNNING; `timeLeft` and `mode` are untouched. -/
def toggleTimer (s : Snapshot) : Snapshot :=
  { s with timerState :=
      if s.timerState = TimerState.RUNNING then TimerState.PAUSED
      else TimerState.RUNNING }

/-- `skipTimer` from the source: unconditionally call `handleTimerFinish`. -/
def skipTimer (s : Snapshot) : Snapshot × List String :=
  handleTimerFinish s

/-- Supplying a new `activeTask` prop. The reset effect has dependency list
`[activeTask?.id, settings.pomodoroDuration]`, so it fires when the id of
the active task changes, and its body `if (activeTask) { ... reset ... }`
resets only when the new active task is present. -/
def setActiveTask (s : Snapshot) (t : Option Task) : Snapshot :=
  let s1 := { s with activeTask := t }
  if s.activeTask.map Task.id ≠ t.map Task.id then
    match t with
    | some _ =>
        { s1 with
            timerState := TimerState.IDLE, mode := Mode.pomo,
            timeLeft := s.settings.pomodoroDuration * 60 }
    | none => s1
  else s1

/-- Supplying a new `settings` prop. The reset effect fires when
`settings.pomodoroDuration` changes, and resets only when an active task is
present (reading the new `pomodoroDuration`). -/
def setSettings (s : Snapshot) (cfg : Settings) : Snapshot :=
  let s1 := { s with settings := cfg }
  if s.settings.pomodoroDuration ≠ cfg.pomodoroDuration ∧ s1.activeTask.isSome then
    { s1 with
        timerState := TimerState.IDLE, mode := Mode.pomo,
        timeLeft := cfg.pomodoroDuration * 60 }
  else s1

/-- The initial state of the three `useState` cells for the given props:
`timeLeft = settings.pomodoroDuration * 60`, `timerState = IDLE`,
`mode = 'pomo'`. -/
def initSnapshot (t : Option Task) (cfg : Settings) : Snapshot :=
  { timeLeft := cfg.pomodoroDuration * 60, timerState := TimerState.IDLE,
    mode := Mode.pomo, activeTask := t, settings := cfg }

/-- `duration(mode, settings)` as the spec defines it; the source computes
the same value as `durationCurrent` for the progress bar. -/
def durationOf (m : Mode) (cfg : Settings) : Nat :=
  match m with
  | Mode.pomo => cfg.pomodoroDuration
  | Mode.short => cfg.shortBreakDuration
  | Mode.long => cfg.longBreakDuration

/-- Events that drive the engine, excluding settings changes. -/
inductive Evt where
  | tick
  | toggle
  | skip
  | setTask (t : Option Task)
  deriving Repr

/-- Events that drive the engine, including settings changes. -/
inductive EvtF where
  | tick
  | toggle
  | skip
  | setTask (t : Option Task)
  | setCfg (cfg : Settings)
  deriving Repr

/-- Apply one settings-free event to a snapshot (callback output dropped). -/
def applyEvt (s : Snapshot) : Evt → Snapshot
  | Evt.tick => (tick s).1
  | Evt.toggle => toggleTimer s
  | Evt.skip => (skipTimer s).1
  | Evt.setTask t => setActiveTask s t

/-- Apply a sequence of settings-free events. -/
def applyEvents (s : Snapshot) (es : List Evt) : Snapshot :=
  es.foldl applyEvt s

/-- Apply one event (settings changes included) to a snapshot. -/
def applyEvtF (s : Snapshot) : EvtF → Snapshot
  | EvtF.tick => (tick s).1
  | EvtF.toggle => toggleTimer s
  | EvtF.skip => (skipTimer s).1
  | EvtF.setTask t => setActiveTask s t
  | EvtF.setCfg cfg => setSettings s cfg

/-- Apply a sequence of events (settings changes included). -/
def applyEventsF (s : Snapshot) (es : List EvtF) : Snapshot :=
  es.foldl applyEvtF s

/-- The spec's invariant: `timeLeftSeconds` lies in
`[0, duration(mode, settings) * 60]`. -/
abbrev invariantHolds (s : Snapshot) : Prop :=
  0 ≤ s.timeLeft ∧ s.timeLeft ≤ durationOf s.mode s.settings * 60

/-! ## The plan-extraction client `parseNaturalLanguagePlan` -/

/-- A JavaScript runtime value, as far as the client's handling of the
parsed response body needs: `JSON.parse` yields null, booleans, numbers,
strings, arrays or objects, and a missing property reads as `undefined`. -/
inductive JsValue where
  | null
  | undefined
  | bool (b : Bool)
  | num (n : Int)
  | str (s : String)
  | arr (xs : List JsValue)
  | obj (fields : List (String × JsValue))

/-- JavaScript truthiness: `undefined`, `null`, `false`, `0` and the empty
string are falsy; every array and object is truthy. -/
def truthy : JsValue → Bool
  | JsValue.null => false
  | JsValue.undefined => false
  | JsValue.bool b => b
  | JsValue.num n => n ≠ 0
  | JsValue.str s => s ≠ ""
  | JsValue.arr _ => true
  | JsValue.obj _ => true

/-- Property access `v.tasks`: the field's value on an object that has it,
`undefined` otherwise (accessing a property of a non-object primitive also
reads as a non-truthy value, which the client treats identically). -/
def getField (v : JsValue) (k : String) : JsValue :=
  match v with
  | JsValue.obj fields => (fields.lookup k).getD JsValue.undefined
  | _ => JsValue.undefined

/-- Outcome of the single `ai.models.generateContent` call: the promise
either rejects (`throws`) or resolves with a response whose `text` property
is a string or `undefined`. -/
inductive CallOutcome where
  | throws
  | returns (text : Option String)

/-- `response.text || "{}"`: an absent or empty `text` is replaced by the
literal two-character string of an empty JSON object. -/
def responseBody : Option String → String
  | none => "\x7b\x7d"
  | some s => if s = "" then "\x7b\x7d" else s

/-- Truthiness of `process.env.API_KEY` as `getClient` checks it: absent or
empty means no credential is configured. -/
def jsTruthyStr : Option String → Bool
  | none => false
  | some s => s ≠ ""

/-- The value handed back to the caller, plus whether the external call was
issued at all (`getClient` returning null short-circuits before any call). -/
structure ParseResult where
  tasks : JsValue
  issuedCall : Bool

/-- `parseNaturalLanguagePlan` from the source, with its two external
dependencies made explicit: `jsonParse` stands for `JSON.parse` (returning
`none` when parsing throws a `SyntaxError`) and `outcome` for the behaviour
of the awaited `generateContent` call. With no configured credential it
returns `\x7btasks: []\x7d` before issuing any call; the `try`/`catch`
collapses a rejected call or a parse failure to `\x7btasks: []\x7d`; on
success it returns `result.tasks || []`. The `input` and `baseTime`
arguments flow only into the prompt string sent to the external call. -/
def parseNaturalLanguagePlan (jsonParse : String → Option JsValue)
    (apiKey : Option String) (input : String) (baseTime : Int)
    (outcome : CallOutcome) : ParseResult :=
  if jsTruthyStr apiKey = false then
    { tasks := JsValue.arr [], issuedCall := false }
  else
    match outcome with
    | CallOutcome.throws => { tasks := JsValue.arr [], issuedCall := true }
    | CallOutcome.returns text =>
        match jsonParse (responseBody text) with
        | none => { tasks := JsValue.arr [], issuedCall := true }
        | some v =>
            let t := getField v "tasks"
            { tasks := if truthy t then t else JsValue.arr [],
              issuedCall := true }

/-! ## Concrete fixtures for witnesses and counterexamples -/

/-- A task with no finished pomodoros yet. -/
def task0 : Task :=
  { id := "t1", title := "Write report", completedPomodoros := 0,
    expectedPomodoros := 4 }

/-- A task three pomodoros in, so the next completion is the fourth. -/
def task3 : Task :=
  { id := "t3", title := "Review notes", completedPomodoros := 3,
    expectedPomodoros := 4 }

/-- The spec's example settings. -/
def cfg0 : Settings :=
  { pomodoroDuration := 25, shortBreakDuration := 5, longBreakDuration := 15,
    autoStartBreaks := true, autoStartPomodoros := false }

/-- Like `cfg0` but with a one-minute short break. -/
def cfg1 : Settings :=
  { pomodoroDuration := 25, shortBreakDuration := 1, longBreakDuration := 15,
    autoStartBreaks := true, autoStartPomodoros := false }

/-- A fresh Focus snapshot for `task0` under `cfg0`. -/
def sampleFocus : Snapshot :=
  { timeLeft := 1500, timerState := TimerState.IDLE, mode := Mode.pomo,
    activeTask := some task0, settings := cfg0 }

/-- A short-break snapshot for `task0` under `cfg0`. -/
def sampleBreak : Snapshot :=
  { timeLeft := 300, timerState := TimerState.IDLE, mode := Mode.short,
    activeTask := some task0, settings := cfg0 }

/-- A running Focus snapshot with no active task. -/
def sampleNoTask : Snapshot :=
  { timeLeft := 42, timerState := TimerState.RUNNING, mode := Mode.pomo,
    activeTask := none, settings := cfg0 }

/-- A paused Focus snapshot mid-interval. -/
def samplePaused : Snapshot :=
  { timeLeft := 77, timerState := TimerState.PAUSED, mode := Mode.pomo,
    activeTask := some task0, settings := cfg0 }

/-- An idle long-break snapshot mid-interval. -/
def sampleIdle : Snapshot :=
  { timeLeft := 100, timerState := TimerState.IDLE, mode := Mode.long,
    activeTask := some task0, settings := cfg0 }

/-! ## Timer theorems -/

/-- Claim C1: when a Focus interval finishes, with
`completedCount = activeTask.completedPomodoros + 1` (the pre-increment
value; `0 + 1` with no active task), the next mode is LongBreak exactly when
`completedCount % 4 == 0` and ShortBreak otherwise, `timeLeftSeconds`
becomes the chosen break's configured duration times 60, and the state
becomes RUNNING iff `settings.autoStartBreaks`; both finish paths (skip, and
tick expiry while running) produce this very transition. -/
theorem focus_finish_next_interval (s : Snapshot) (h : s.mode = Mode.pomo) :
    (handleTimerFinish s).1.mode =
      (if ((s.activeTask.map Task.completedPomodoros).getD 0 + 1) % 4 = 0
        then Mode.long else Mode.short) ∧
    (handleTimerFinish s).1.timeLeft =
      (if ((s.activeTask.map Task.completedPomodoros).getD 0 + 1) % 4 = 0
        then s.settings.longBreakDuration
        else s.settings.shortBreakDuration) * 60 ∧
    (handleTimerFinish s).1.timerState =
      (if s.settings.autoStartBreaks then TimerState.RUNNING
        else TimerState.IDLE) ∧
    skipTimer s = handleTimerFinish s ∧
    (s.timerState = TimerState.RUNNING → s.timeLeft ≤ 1 →
      tick s = handleTimerFinish s) := by
  refine ⟨?_, ?_, ?_, rfl, fun h1 h2 => by simp [tick, h1, h2]⟩
  · simp [handleTimerFinish, h]
  · simp only [handleTimerFinish, h, if_true]
    split <;> simp
  · simp [handleTimerFinish, h]

/-- Witness for C1: finishing a Focus interval for `task3`
(`completedPomodoros = 3`, so `completedCount = 4`) yields a LongBreak of
`15 * 60` seconds, RUNNING because `cfg0.autoStartBreaks` is true. -/
theorem focus_finish_next_interval_witness :
    (handleTimerFinish { sampleFocus with activeTask := some task3 }).1.mode
        = Mode.long ∧
    (handleTimerFinish { sampleFocus with activeTask := some task3 }).1.timeLeft
        = 900 ∧
    (handleTimerFinish { sampleFocus with activeTask := some task3 }).1.timerState
        = TimerState.RUNNING := by
  have h := focus_finish_next_interval
    { sampleFocus with activeTask := some task3 } rfl
  exact ⟨by rw [h.1]; decide, by rw [h.2.1]; decide, by rw [h.2.2.1]; decide⟩

/-- Claim C3: `skipTimer` unconditionally runs `handleTimerFinish`
regardless of the current state and remaining time, and skipping from a
PAUSED snapshot produces exactly the same result (snapshot and callback
output alike) as the interval expiring through `tick` while RUNNING. -/
theorem skip_equals_natural_expiry (s : Snapshot) (t : Nat) (ht : t ≤ 1) :
    skipTimer s = handleTimerFinish s ∧
    skipTimer { s with timerState := TimerState.PAUSED } =
      tick { s with timerState := TimerState.RUNNING, timeLeft := t } := by
  obtain ⟨tl, st, m, task, cfg⟩ := s
  exact ⟨rfl, by simp [skipTimer, tick, handleTimerFinish, ht]⟩

/-- Witness for C3: skipping the paused snapshot `samplePaused` equals a
tick at one remaining second while RUNNING. -/
theorem skip_equals_natural_expiry_witness :
    skipTimer samplePaused = handleTimerFinish samplePaused ∧
    skipTimer { samplePaused with timerState := TimerState.PAUSED } =
      tick { samplePaused with
        timerState := TimerState.RUNNING,
        timeLeft := 1 } :=
  skip_equals_natural_expiry samplePaused 1 (by decide)

/-- Claim C4: while RUNNING, a tick at `timeLeftSeconds <= 1` runs
`handleTimerFinish`, and otherwise decrements `timeLeftSeconds` by exactly
one leaving state and mode unchanged; when not RUNNING a tick changes
nothing and emits no callback. -/
theorem tick_behavior (s : Snapshot) :
    (s.timerState = TimerState.RUNNING → s.timeLeft ≤ 1 →
      tick s = handleTimerFinish s) ∧
    (s.timerState = TimerState.RUNNING → 1 < s.timeLeft →
      tick s = ({ s with timeLeft := s.timeLeft - 1 }, [])) ∧
    (s.timerState ≠ TimerState.RUNNING → tick s = (s, [])) := by
  refine ⟨fun h1 h2 => by simp [tick, h1, h2], fun h1 h2 => ?_, fun h => ?_⟩
  · simp [tick, h1, show ¬ s.timeLeft ≤ 1 by omega]
  · simp [tick, h]

/-- Witness for C4: a paused tick is absorbed, a running tick at 77 seconds
counts down to 76. -/
theorem tick_behavior_witness :
    tick samplePaused = (samplePaused, []) ∧
    tick { samplePaused with timerState := TimerState.RUNNING } =
      ({ samplePaused with timerState := TimerState.RUNNING, timeLeft := 76 },
        []) := by
  refine ⟨(tick_behavior samplePaused).2.2 (by decide), ?_⟩
  have h := (tick_behavior { samplePaused with
    timerState := TimerState.RUNNING }).2.1 rfl (by decide)
  simpa [samplePaused] using h

/-- Claim C5: when a break interval (short or long) finishes, the next mode
is Focus, `timeLeftSeconds` becomes `settings.pomodoroDuration * 60`, the
state becomes RUNNING iff `settings.autoStartPomodoros`, and no completion
callback is emitted. -/
theorem break_finish_next_interval (s : Snapshot)
    (h : s.mode = Mode.short ∨ s.mode = Mode.long) :
    handleTimerFinish s =
      ({ s with
          timerState := if s.settings.autoStartPomodoros then TimerState.RUNNING
            else TimerState.IDLE,
          mode := Mode.pomo,
          timeLeft := s.settings.pomodoroDuration * 60 }, []) := by
  have hne : s.mode ≠ Mode.pomo := by rcases h with h | h <;> simp [h]
  simp [handleTimerFinish, hne]

/-- Witness for C5: finishing the short break `sampleBreak` yields an idle
Focus interval of `25 * 60` seconds (`cfg0.autoStartPomodoros` is false),
with no callback. -/
theorem break_finish_next_interval_witness :
    handleTimerFinish sampleBreak =
      ({ sampleBreak with
          timerState := if sampleBreak.settings.autoStartPomodoros
            then TimerState.RUNNING else TimerState.IDLE,
          mode := Mode.pomo,
          timeLeft := sampleBreak.settings.pomodoroDuration * 60 }, []) :=
  break_finish_next_interval sampleBreak (Or.inl rfl)

/-- Claim C9: a Focus interval finishing with no active task emits no
`onPomodoroComplete` callback, and the completed count is `0 + 1 = 1`, so
the next mode is always ShortBreak with
`timeLeftSeconds = settings.shortBreakDuration * 60`. -/
theorem focus_finish_no_task (s : Snapshot) (h1 : s.mode = Mode.pomo)
    (h2 : s.activeTask = none) :
    handleTimerFinish s =
      ({ s with
          timerState := if s.settings.autoStartBreaks then TimerState.RUNNING
            else TimerState.IDLE,
          mode := Mode.short,
          timeLeft := s.settings.shortBreakDuration * 60 }, []) := by
  simp [handleTimerFinish, h1, h2]

/-- Witness for C9: finishing `sampleNoTask` (Focus, no task) yields a
running short break of `5 * 60` seconds and no callback. -/
theorem focus_finish_no_task_witness :
    handleTimerFinish sampleNoTask =
      ({ sampleNoTask with
          timerState := if sampleNoTask.settings.autoStartBreaks
            then TimerState.RUNNING else TimerState.IDLE,
          mode := Mode.short,
          timeLeft := sampleNoTask.settings.shortBreakDuration * 60 }, []) :=
  focus_finish_no_task sampleNoTask rfl rfl

/-- Counterexample to claim C6 as stated: clearing the active task changes
`activeTask?.id` (from `some "t1"` to `none`), yet the engine does not
reset — after a skip from a fresh `task0` Focus interval the engine is in a
RUNNING short break at 300 seconds, and removing the task leaves exactly
that, not an idle Focus interval at full duration. -/
theorem task_clear_no_reset_cex :
    (applyEventsF (initSnapshot (some task0) cfg0)
        [EvtF.skip]).activeTask.map Task.id ≠ (none : Option Task).map Task.id ∧
    (setActiveTask (applyEventsF (initSnapshot (some task0) cfg0)
        [EvtF.skip]) none).timerState ≠ TimerState.IDLE ∧
    engineTriple (setActiveTask (applyEventsF (initSnapshot (some task0) cfg0)
        [EvtF.skip]) none) ≠
      (Mode.pomo, cfg0.pomodoroDuration * 60, TimerState.IDLE) := by
  decide

/-- Claim C6 amended: whenever the id of the active task changes AND the new
active task is present, the engine resets to IDLE, Focus and
`settings.pomodoroDuration * 60` regardless of prior state, mode or
remaining time; clearing the active task (new value absent) leaves the
engine snapshot unchanged. -/
theorem task_change_reset (s : Snapshot) (t : Task)
    (h : s.activeTask.map Task.id ≠ some t.id) :
    setActiveTask s (some t) =
      { s with
          activeTask := some t, timerState := TimerState.IDLE,
          mode := Mode.pomo, timeLeft := s.settings.pomodoroDuration * 60 } ∧
    engineTriple (setActiveTask s none) = engineTriple s := by
  constructor
  · simp [setActiveTask, h]
  · unfold setActiveTask
    split <;> rfl

/-- Witness for amended C6: switching `sampleIdle` (a mid-interval long
break for `task0`) to `task3` resets it; clearing the task preserves the
`(mode, timeLeft, state)` triple. -/
theorem task_change_reset_witness :
    setActiveTask sampleIdle (some task3) =
      { sampleIdle with
          activeTask := some task3, timerState := TimerState.IDLE,
          mode := Mode.pomo,
          timeLeft := sampleIdle.settings.pomodoroDuration * 60 } ∧
    engineTriple (setActiveTask sampleIdle none) = engineTriple sampleIdle :=
  task_change_reset sampleIdle task3 (by decide)

/-- Counterexample to claim C8 as stated: from a fresh `task0` interval,
toggling to RUNNING and then clearing the task reaches a RUNNING snapshot
with no active task, and a tick there is not a no-op — it decrements
`timeLeftSeconds`. -/
theorem tick_no_task_running_cex :
    (applyEventsF (initSnapshot (some task0) cfg0)
        [EvtF.toggle, EvtF.setTask none]).activeTask = none ∧
    (applyEventsF (initSnapshot (some task0) cfg0)
        [EvtF.toggle, EvtF.setTask none]).timerState = TimerState.RUNNING ∧
    (tick (applyEventsF (initSnapshot (some task0) cfg0)
        [EvtF.toggle, EvtF.setTask none])).1 ≠
      applyEventsF (initSnapshot (some task0) cfg0)
        [EvtF.toggle, EvtF.setTask none] := by
  decide

/-- Claim C8 amended: with no active task, a tick raises nothing to the
caller (no `onPomodoroComplete` invocation in any branch), and it is a
no-op exactly when the state is not RUNNING; a RUNNING tick still counts
down or finishes the interval as usual. -/
theorem tick_no_task_behavior (s : Snapshot) (h : s.activeTask = none) :
    (s.timerState ≠ TimerState.RUNNING → tick s = (s, [])) ∧
    (tick s).2 = [] := by
  refine ⟨fun hns => by simp [tick, hns], ?_⟩
  by_cases hr : s.timerState = TimerState.RUNNING
  · by_cases h1 : s.timeLeft ≤ 1
    · simp [tick, hr, h1, handleTimerFinish, h, apply_ite]
    · simp [tick, hr, h1]
  · simp [tick, hr]

/-- Witness for amended C8: an idle tick with no task is absorbed, and the
RUNNING no-task tick of `sampleNoTask` emits no callback. -/
theorem tick_no_task_behavior_witness :
    tick { sampleNoTask with timerState := TimerState.IDLE } =
      ({ sampleNoTask with timerState := TimerState.IDLE }, []) ∧
    (tick sampleNoTask).2 = [] :=
  ⟨(tick_no_task_behavior { sampleNoTask with timerState := TimerState.IDLE }
      rfl).1 (by decide),
    (tick_no_task_behavior sampleNoTask rfl).2⟩

/-- `handleTimerFinish` always lands exactly on the new mode's configured
duration, so it preserves the range invariant. -/
theorem handleTimerFinish_invariant (s : Snapshot) :
    invariantHolds (handleTimerFinish s).1 := by
  by_cases h : s.mode = Mode.pomo
  · simp only [invariantHolds, handleTimerFinish, h, if_true]
    refine ⟨Nat.zero_le _, ?_⟩
    split <;> simp [durationOf]
  · simp [invariantHolds, handleTimerFinish, h, durationOf]

/-- Every settings-free event preserves the range invariant. -/
theorem applyEvt_invariant (e : Evt) (s : Snapshot) (h : invariantHolds s) :
    invariantHolds (applyEvt s e) := by
  cases e with
  | tick =>
      show invariantHolds (tick s).1
      by_cases hr : s.timerState = TimerState.RUNNING
      · by_cases h1 : s.timeLeft ≤ 1
        · simpa [tick, hr, h1] using handleTimerFinish_invariant s
        · simp only [tick, hr, if_true, h1, if_false, if_neg h1]
          exact ⟨Nat.zero_le _, le_trans (Nat.sub_le _ _) h.2⟩
      · simpa [tick, hr] using h
  | toggle => exact h
  | skip => exact handleTimerFinish_invariant s
  | setTask t =>
      show invariantHolds (setActiveTask s t)
      unfold setActiveTask
      split
      · cases t with
        | none => exact h
        | some t0 => exact ⟨Nat.zero_le _, le_refl _⟩
      · exact h

/-- The range invariant holds along any settings-free event sequence. -/
theorem applyEvents_invariant (es : List Evt) (s : Snapshot)
    (h : invariantHolds s) : invariantHolds (applyEvents s es) := by
  induction es generalizing s with
  | nil => exact h
  | cons e es ih => exact ih _ (applyEvt_invariant e s h)

/-- Counterexample to claim C2 as stated: skip a fresh `task0` Focus
interval (landing in a 300-second short break under `cfg0`) and then change
the settings to `cfg1`, whose short break is one minute; `pomodoroDuration`
is unchanged so no reset fires, and `timeLeftSeconds = 300` now exceeds
`duration(mode, settings) * 60 = 60`. -/
theorem timeLeft_invariant_cex :
    (applyEventsF (initSnapshot (some task0) cfg0)
        [EvtF.skip, EvtF.setCfg cfg1]).timeLeft = 300 ∧
    durationOf (applyEventsF (initSnapshot (some task0) cfg0)
          [EvtF.skip, EvtF.setCfg cfg1]).mode
        (applyEventsF (initSnapshot (some task0) cfg0)
          [EvtF.skip, EvtF.setCfg cfg1]).settings * 60 = 60 ∧
    ¬ invariantHolds (applyEventsF (initSnapshot (some task0) cfg0)
        [EvtF.skip, EvtF.setCfg cfg1]) := by
  decide

/-- Claim C2 amended: for every engine snapshot reachable from the initial
state by any sequence of tick, toggle, skip and task-change events (settings
held fixed — a settings change that shrinks the current mode's duration can
leave `timeLeftSeconds` above the new bound), `timeLeftSeconds` lies in
`[0, duration(mode, settings) * 60]`. -/
theorem timeLeft_in_range (t : Option Task) (cfg : Settings)
    (es : List Evt) :
    0 ≤ (applyEvents (initSnapshot t cfg) es).timeLeft ∧
    (applyEvents (initSnapshot t cfg) es).timeLeft ≤
      durationOf (applyEvents (initSnapshot t cfg) es).mode
        (applyEvents (initSnapshot t cfg) es).settings * 60 :=
  applyEvents_invariant es (initSnapshot t cfg) ⟨Nat.zero_le _, le_refl _⟩

/-! ## Plan-extraction client theorems -/

/-- A `JSON.parse` stand-in that always yields an empty object. -/
def jpObjEmpty : String → Option JsValue := fun _ => some (JsValue.obj [])

/-- A `JSON.parse` stand-in that always throws a `SyntaxError`. -/
def jpNone : String → Option JsValue := fun _ => none

/-- A `JSON.parse` stand-in yielding an object whose `tasks` field is the
number 5 — not even an array of task-shaped elements. -/
def jpTasksNum : String → Option JsValue :=
  fun _ => some (JsValue.obj [("tasks", JsValue.num 5)])

/-- Claim C7: `parseNaturalLanguagePlan` never raises: with no configured
credential it returns an empty task list without issuing the external call;
if the call throws, or the response body fails to parse as JSON, or the
parsed response lacks a `tasks` field, it returns an empty task list. -/
theorem parse_plan_failures_empty (jp : String → Option JsValue)
    (key : Option String) (input : String) (baseTime : Int)
    (outcome : CallOutcome) (text : Option String) (v : JsValue) :
    (jsTruthyStr key = false →
      parseNaturalLanguagePlan jp key input baseTime outcome =
        { tasks := JsValue.arr [], issuedCall := false }) ∧
    (parseNaturalLanguagePlan jp key input baseTime
        CallOutcome.throws).tasks = JsValue.arr [] ∧
    (jp (responseBody text) = none →
      (parseNaturalLanguagePlan jp key input baseTime
          (CallOutcome.returns text)).tasks = JsValue.arr []) ∧
    (jp (responseBody text) = some v →
      getField v "tasks" = JsValue.undefined →
      (parseNaturalLanguagePlan jp key input baseTime
          (CallOutcome.returns text)).tasks = JsValue.arr []) := by
  refine ⟨fun h => by simp [parseNaturalLanguagePlan, h], ?_, ?_, ?_⟩
  · by_cases h : jsTruthyStr key = false <;>
      simp [parseNaturalLanguagePlan, h]
  · intro hp
    by_cases h : jsTruthyStr key = false <;>
      simp [parseNaturalLanguagePlan, h, hp]
  · intro hp hf
    by_cases h : jsTruthyStr key = false <;>
      simp [parseNaturalLanguagePlan, h, hp, hf, truthy]

/-- Witness for C7, exercising three failure modes concretely: no
credential (no call issued), a parse failure, and a parsed object with no
`tasks` field. -/
theorem parse_plan_failures_empty_witness :
    (jsTruthyStr none = false ∧
      parseNaturalLanguagePlan jpObjEmpty none "walk the dog" 0
          CallOutcome.throws =
        { tasks := JsValue.arr [], issuedCall := false }) ∧
    (jpNone (responseBody (some "not json")) = none ∧
      (parseNaturalLanguagePlan jpNone (some "key") "walk the dog" 0
          (CallOutcome.returns (some "not json"))).tasks = JsValue.arr []) ∧
    (jpObjEmpty (responseBody (some "other")) = some (JsValue.obj []) ∧
      getField (JsValue.obj []) "tasks" = JsValue.undefined ∧
      (parseNaturalLanguagePlan jpObjEmpty (some "key") "walk the dog" 0
          (CallOutcome.returns (some "other"))).tasks = JsValue.arr []) :=
  ⟨⟨rfl, (parse_plan_failures_empty jpObjEmpty none "walk the dog" 0
      CallOutcome.throws (some "other") (JsValue.obj [])).1 rfl⟩,
    ⟨rfl, (parse_plan_failures_empty jpNone (some "key") "walk the dog" 0
      CallOutcome.throws (some "not json") (JsValue.obj [])).2.2.1 rfl⟩,
    ⟨rfl, rfl, (parse_plan_failures_empty jpObjEmpty (some "key")
      "walk the dog" 0 CallOutcome.throws (some "other")
      (JsValue.obj [])).2.2.2 rfl rfl⟩⟩

/-- Claim C10: when the external call succeeds and the body parses to a
value with a truthy `tasks` field, `parseNaturalLanguagePlan` hands that
`tasks` value back exactly as parsed, with no element validation — here
even a plain number passes through. -/
theorem parse_plan_truthy_passthrough (jp : String → Option JsValue)
    (key : Option String) (input : String) (baseTime : Int)
    (text : Option String) (v : JsValue)
    (hkey : jsTruthyStr key = true)
    (hparse : jp (responseBody text) = some v)
    (htruthy : truthy (getField v "tasks") = true) :
    parseNaturalLanguagePlan jp key input baseTime
        (CallOutcome.returns text) =
      { tasks := getField v "tasks", issuedCall := true } := by
  simp [parseNaturalLanguagePlan, hkey, hparse, htruthy]

/-- Witness for C10: a response whose `tasks` field is the bare number 5 is
returned unchanged. -/
theorem parse_plan_truthy_passthrough_witness :
    jsTruthyStr (some "key") = true ∧
    jpTasksNum (responseBody (some "resp")) =
      some (JsValue.obj [("tasks", JsValue.num 5)]) ∧
    truthy (getField (JsValue.obj [("tasks", JsValue.num 5)]) "tasks") =
      true ∧
    parseNaturalLanguagePlan jpTasksNum (some "key") "plan my day" 0
        (CallOutcome.returns (some "resp")) =
      { tasks := getField (JsValue.obj [("tasks", JsValue.num 5)]) "tasks",
        issuedCall := true } :=
  ⟨rfl, rfl, rfl,
    parse_plan_truthy_passthrough jpTasksNum (some "key") "plan my day" 0
      (some "resp") (JsValue.obj [("tasks", JsValue.num 5)]) rfl rfl rfl⟩

end DayPlanner
